import Mathlib

/-!
Shallow embedding of the ubyagro_back repository (src/uby/agents/ale.py and
src/uby/api.py) together with theorems about its chat, tool, auth and
mock-endpoint behaviour.

Conventions of the embedding:
* Python message objects (UserMessage, AssistantMessage with TextPart parts)
  become the inductive Message below.
* The language-model / web-extraction calls are opaque in the source
  (external library); they are passed in as explicit function arguments, and
  a failure of such a call is an Except.error value; a Python exception that
  leaves a function uncaught is the function returning that Except.error.
* Endpoint handlers that could in principle consult a clock receive the call
  time as an explicit Nat argument; a handler whose Python body never reads
  the clock or any store simply ignores that argument.
-/

namespace Uby

/-! ## Messages (agentle message model used by ale.py) -/

/-- A TextPart of a message. -/
inductive MessagePart where
  | text (value : String)

/-- A chat message: UserMessage or AssistantMessage, each a list of parts. -/
inductive Message where
  | user (parts : List MessagePart)
  | assistant (parts : List MessagePart)

/-- Shorthand for UserMessage(parts=[TextPart(text=s)]). -/
def userMessage (s : String) : Message :=
  Message.user [MessagePart.text s]

/-! ## Project context dict passed to run_ale_chat -/

/-- The project_context dict of run_ale_chat: keys name, category, target_crop,
and the optional key status_regulatorio read with .get and default. -/
structure ProjectContext where
  name : String
  category : String
  target_crop : String
  status_regulatorio : Option String

/-- The context_message f-string built at src/uby/agents/ale.py lines 204-210,
with its literal leading newline and four-space indentation. -/
def context_message_text (pc : ProjectContext) : String :=
  "\n    [CONTEXTO DO PROJETO]\n    Nome: " ++ pc.name ++
  "\n    Categoria: " ++ pc.category ++
  "\n    Cultura: " ++ pc.target_crop ++
  "\n    Status Regulatório Atual: " ++ pc.status_regulatorio.getD "Em análise" ++
  "\n    "

/-! ## run_ale_chat message construction (src/uby/agents/ale.py lines 203-220)

The Python body manipulates two local list variables:
    messages = [UserMessage(parts=[TextPart(text=context_message)])]
    messages.extend(chat_history)
    messages.append(UserMessage(parts=[TextPart(text=user_message)]))
Each Python list variable is a field of the state record ChatLocals and each
statement is a state transformer that updates exactly the list the statement
mutates: extend and append mutate the receiver list messages, never their
argument. -/

/-- Local variables of run_ale_chat: the fresh messages list and the
chat_history argument. -/
structure ChatLocals where
  messages : List Message
  chat_history : List Message

/-- Line 212-214: messages = [UserMessage(parts=[TextPart(text=context_message)])]. -/
def chat_locals_init (pc : ProjectContext) (history : List Message) : ChatLocals :=
  { messages := [userMessage (context_message_text pc)], chat_history := history }

/-- Line 217: messages.extend(chat_history) — mutates messages only. -/
def chat_locals_extend (s : ChatLocals) : ChatLocals :=
  { s with messages := s.messages ++ s.chat_history }

/-- Line 220: messages.append(UserMessage(parts=[TextPart(text=user_message)])). -/
def chat_locals_append (user_message : String) (s : ChatLocals) : ChatLocals :=
  { s with messages := s.messages ++ [userMessage user_message] }

/-- The local state of run_ale_chat just before agent.run_async(messages). -/
def run_ale_chat_locals (user_message : String) (pc : ProjectContext)
    (chat_history : List Message) : ChatLocals :=
  chat_locals_append user_message (chat_locals_extend (chat_locals_init pc chat_history))

/-- The message sequence run_ale_chat sends to the agent. -/
def run_ale_chat_messages (user_message : String) (pc : ProjectContext)
    (chat_history : List Message) : List Message :=
  (run_ale_chat_locals user_message pc chat_history).messages

/-! ## run_ale_chat response extraction (src/uby/agents/ale.py line 225) -/

/-- One element of output.content: an object carrying a text field. -/
structure ContentPart where
  text : String

/-- The output object returned by agent.run_async as used by run_ale_chat. -/
structure AgentRunOutput where
  content : List ContentPart

/-- Line 225: output.content[0].text if output.content else the fallback.
Python truthiness of a list is nonemptiness. -/
def run_ale_chat_response (output : AgentRunOutput) : String :=
  match output.content with
  | part :: _ => part.text
  | [] => "Desculpe, não consegui gerar resposta."

/-! ## buscar_portal_mapa (src/uby/agents/ale.py lines 32-76) -/

/-- The ExtractionPreferences record built at lines 53-59. -/
structure ExtractionPreferences where
  only_main_content : Bool
  wait_for_ms : Nat
  block_ads : Bool
  remove_base_64_images : Bool
  timeout_ms : Nat
deriving DecidableEq, Repr

/-- The literal preferences buscar_portal_mapa passes to extract_async. -/
def buscar_portal_mapa_preferences : ExtractionPreferences :=
  { only_main_content := true
  , wait_for_ms := 2000
  , block_ads := true
  , remove_base_64_images := true
  , timeout_ms := 15000 }

/-- The output schema MapaExtractedContent declared inside buscar_portal_mapa. -/
structure MapaExtractedContent where
  informacao_relevante : String
  numero_normativa : Option String
  data_publicacao : Option String

/-- The urls list of buscar_portal_mapa (line 48-51). -/
def mapa_urls : List String :=
  ["https://www.gov.br/agricultura/pt-br/assuntos/insumos-agropecuarios/insumos-agricolas/fertilizantes/legislacao"]

/-- The prompt f-string of line 70. -/
def mapa_prompt (termo : String) : String :=
  "Extrair informações sobre: " ++ termo ++ ". Focar em requisitos, prazos e custos."

/-- Resource trace of one buscar_portal_mapa execution: whether the browser
was launched, whether await browser.close() (line 74) was executed, and
whether the async with async_playwright() scope exit ran. -/
structure BrowserTrace where
  browser_launched : Bool
  browser_closed : Bool
  playwright_stopped : Bool
deriving DecidableEq, Repr

/-- The opaque extract_async call, abstracted: it receives the urls, the
preferences and the prompt and yields result.output_parsed or raises. -/
abbrev ExtractFn : Type :=
  List String → ExtractionPreferences → String → Except String MapaExtractedContent

/-- Embedding of buscar_portal_mapa. The body has no try/except: when
extract_async raises, the exception leaves the function (the Except.error
branch), await browser.close() on line 74 is never reached, and only the
async with scope exit runs — exiting the async with runs on both paths, so
playwright_stopped is true on both. On success the function closes the
browser and returns result.output_parsed.informacao_relevante. -/
def buscar_portal_mapa (extract : ExtractFn) (termo : String) :
    Except String String × BrowserTrace :=
  match extract mapa_urls buscar_portal_mapa_preferences (mapa_prompt termo) with
  | Except.ok result =>
      (Except.ok result.informacao_relevante,
        { browser_launched := true, browser_closed := true, playwright_stopped := true })
  | Except.error e =>
      (Except.error e,
        { browser_launched := true, browser_closed := false, playwright_stopped := true })

/-- Whether an Except value is a success. -/
def exceptIsOk {ε α : Type} : Except ε α → Bool
  | Except.ok _ => true
  | Except.error _ => false

/-! ## api.py: auth (lines 170-175) -/

/-- The user dict returned by verify_token. -/
structure AuthUser where
  user_id : String
  role : String
deriving DecidableEq, Repr

/-- An HTTPException value: status code and detail. -/
structure HTTPError where
  status_code : Nat
  detail : String
deriving DecidableEq, Repr

/-- The token dependency of verify_token: Depends(lambda: "mock_token")
supplies this constant on every request, since no caller overrides it. -/
def token_dependency_default : String := "mock_token"

/-- verify_token (src/uby/api.py lines 170-175). Python truthiness of a str
is nonemptiness, so the 401 branch fires exactly on the empty token. -/
def verify_token (token : String) : Except HTTPError AuthUser :=
  if token = "" then Except.error { status_code := 401, detail := "Token não fornecido" }
  else Except.ok { user_id := "user-1", role := "colaborador" }

/-! ## api.py: status endpoint (lines 233-271) -/

/-- Per-agent progress entry of the status response. -/
structure AgentProgress where
  status : String
  progress_percent : Nat
  estimated_time_remaining_seconds : Nat
deriving DecidableEq, Repr

/-- The response of get_project_status. -/
structure ProjectStatusResponse where
  project_id : String
  status : String
  progress : List (String × AgentProgress)
  overall_progress_percent : Nat
deriving DecidableEq, Repr

/-- get_project_status (src/uby/api.py lines 233-271). The handler receives
the call time as the explicit argument now but its Python body reads neither
the clock nor any store: it returns a literal dict built from project_id. -/
def get_project_status (now : Nat) (project_id : String) : ProjectStatusResponse :=
  let _ := now
  { project_id := project_id
  , status := "processing"
  , progress :=
      [ ("ale", { status := "completed", progress_percent := 100
                , estimated_time_remaining_seconds := 0 })
      , ("merc", { status := "processing", progress_percent := 75
                 , estimated_time_remaining_seconds := 15 })
      , ("pat", { status := "processing", progress_percent := 50
                , estimated_time_remaining_seconds := 30 })
      , ("dex", { status := "pending", progress_percent := 0
                , estimated_time_remaining_seconds := 60 }) ]
  , overall_progress_percent := 56 }

/-! ## api.py: analysis endpoint (lines 92-164 and 273-287) -/

/-- Agent status colours used in MOCK_ANALYSIS_DATA. -/
inductive TrafficLight where
  | verde
  | amarelo
  | vermelho
deriving DecidableEq, Repr

/-- The tri-state recommendation enum of ProjectAnalysis. -/
inductive Recommendation where
  | VIAVEL
  | VIAVEL_COM_AJUSTES
  | NAO_VIAVEL
deriving DecidableEq, Repr

/-- One entry of the agents dict of MOCK_ANALYSIS_DATA. The free-form
details sub-dict of each agent is heterogeneous mock payload used by no
claim and is not modelled. -/
structure AgentAnalysisDetails where
  agent_name : String
  agent_role : String
  status : TrafficLight
  score : Nat
  summary : String
deriving DecidableEq, Repr

/-- The analysis response shape. alerts is the empty List[dict] of the mock,
modelled by its length only. -/
structure ProjectAnalysis where
  project_id : String
  project_name : String
  overall_score : Nat
  recommendation : Recommendation
  recommendation_text : String
  analyzed_at : Nat
  agents : List (String × AgentAnalysisDetails)
  financial_projection : List (String × String)
  action_items : List String
  alerts_len : Nat
deriving DecidableEq, Repr

/-- MOCK_ANALYSIS_DATA (src/uby/api.py lines 92-164). Its analyzed_at field
is datetime.now() evaluated once at module import; that instant is the
explicit argument load_time. -/
def MOCK_ANALYSIS_DATA (load_time : Nat) : ProjectAnalysis :=
  { project_id := "proj-abc123"
  , project_name := "Bioestimulante Algas Soja"
  , overall_score := 82
  , recommendation := Recommendation.VIAVEL_COM_AJUSTES
  , recommendation_text :=
      "Projeto viável com ajustes menores na formulação para evitar conflito de patente"
  , analyzed_at := load_time
  , agents :=
      [ ("ale", { agent_name := "Alê", agent_role := "Regulatória"
                , status := TrafficLight.verde, score := 90
                , summary := "Via livre regulatória. Registro estimado em 18-24 meses via MAPA." })
      , ("merc", { agent_name := "Merc", agent_role := "Mercado"
                 , status := TrafficLight.verde, score := 85
                 , summary := "Mercado de R$ 850M/ano crescendo +15% a.a." })
      , ("pat", { agent_name := "Pat", agent_role := "Patentes"
                , status := TrafficLight.amarelo, score := 75
                , summary := "Identificadas 2 patentes com potencial conflito." })
      , ("dex", { agent_name := "Dex", agent_role := "Dados e Ciência"
                , status := TrafficLight.verde, score := 88
                , summary := "73 artigos comprovam eficácia. Dados internos validam." }) ]
  , financial_projection :=
      [ ("investimento_pd", "R$ 1.2M - R$ 1.8M")
      , ("roi_3anos_percent", "320-480%") ]
  , action_items :=
      [ "Contatar Embrapa Soja para parceria"
      , "Iniciar testes de formulação alternativa" ]
  , alerts_len := 0 }

/-- get_project_analysis (src/uby/api.py lines 273-287): copies the mock
dict and overwrites only the project_id key. -/
def get_project_analysis (load_time : Nat) (project_id : String) : ProjectAnalysis :=
  { MOCK_ANALYSIS_DATA load_time with project_id := project_id }

end Uby

namespace Uby

/-! ## Theorems -/

/-- Claim C1, counterexample. The claim states that after the first turn of a
session, only the accumulated history plus the new user turn is sent to the
agent. On a call whose chat_history already holds two accumulated turns,
run_ale_chat does not send history plus new turn: it sends one message more
(the re-injected context turn at the front). -/
theorem C1_counterexample :
    run_ale_chat_messages "Qual o prazo de registro?"
        { name := "Bioestimulante Algas Soja", category := "bioestimulantes"
        , target_crop := "soja", status_regulatorio := none }
        [userMessage "Oi", Message.assistant [MessagePart.text "Olá"]]
      ≠ [userMessage "Oi", Message.assistant [MessagePart.text "Olá"]]
          ++ [userMessage "Qual o prazo de registro?"] := by
  intro heq
  have hlen := congrArg List.length heq
  simp [run_ale_chat_messages, run_ale_chat_locals, chat_locals_append,
    chat_locals_extend, chat_locals_init] at hlen

/-- Claim C1, amended: run_ale_chat prepends the synthesized project-context
turn on every call, not only on the first — the sequence sent to the agent is
always the context turn, then the chat history, then the new user turn, so
the context turn is re-injected on every subsequent call (exactly once per
call, at position 0). -/
theorem C1_context_prepended_every_call (user_message : String) (pc : ProjectContext)
    (chat_history : List Message) :
    run_ale_chat_messages user_message pc chat_history
      = userMessage (context_message_text pc)
          :: (chat_history ++ [userMessage user_message]) := by
  simp [run_ale_chat_messages, run_ale_chat_locals, chat_locals_append,
    chat_locals_extend, chat_locals_init]

/-- Claim C2, counterexample. The analysis returned for the four mock agent
runs carries overall_score 82: it is not approximately 84 and not the
equal-weighted mean of the four scores 90, 85, 75, 88 (whose sum is 338, while
4 times 82 is 328). -/
theorem C2_counterexample :
    (get_project_analysis 0 "proj-abc123").overall_score = 82 ∧
    (get_project_analysis 0 "proj-abc123").overall_score ≠ 84 ∧
    4 * (get_project_analysis 0 "proj-abc123").overall_score ≠ 90 + 85 + 75 + 88 := by
  refine ⟨rfl, by decide, by decide⟩

/-- Claim C2, amended: for any project the analysis endpoint returns the four
agent scores 90, 85, 75, 88 with statuses verde, verde, amarelo, verde and
recommendation VIAVEL_COM_AJUSTES, but its overall_score is the hard-coded
constant 82, not the equal-weighted mean 84.5 of those scores. -/
theorem C2_mock_analysis_values (load_time : Nat) (project_id : String) :
    (get_project_analysis load_time project_id).agents.map (fun a => a.2.score)
        = [90, 85, 75, 88] ∧
    (get_project_analysis load_time project_id).agents.map (fun a => a.2.status)
        = [TrafficLight.verde, TrafficLight.verde, TrafficLight.amarelo, TrafficLight.verde] ∧
    (get_project_analysis load_time project_id).recommendation
        = Recommendation.VIAVEL_COM_AJUSTES ∧
    (get_project_analysis load_time project_id).overall_score = 82 := by
  refine ⟨rfl, rfl, rfl, rfl⟩

/-- Claim C3, counterexample. buscar_portal_mapa converts no failure into a
locally handled ToolError: when the extraction call fails, the raw error
propagates out of the tool to the caller as an uncaught fault. -/
theorem C3_counterexample :
    (buscar_portal_mapa (fun _ _ _ => Except.error "net down") "bioestimulantes registro").fst
      = Except.error "net down" := rfl

/-- Claim C3, amended: buscar_portal_mapa has no local error handling — any
error raised by the extraction call propagates unchanged to the calling
agent; no conversion to a ToolError result happens inside the tool. -/
theorem C3_error_propagates (extract : ExtractFn) (termo e : String)
    (h : extract mapa_urls buscar_portal_mapa_preferences (mapa_prompt termo)
          = Except.error e) :
    (buscar_portal_mapa extract termo).fst = Except.error e := by
  simp [buscar_portal_mapa, h]

/-- Witness for C3_error_propagates at a concrete failing extractor. -/
theorem C3_error_propagates_witness :
    (buscar_portal_mapa (fun _ _ _ => Except.error "timeout") "fertilizantes").fst
      = Except.error "timeout" :=
  C3_error_propagates (fun _ _ _ => Except.error "timeout") "fertilizantes" "timeout" rfl

/-- Claim C4, counterexample. On the exit path where the extraction call
fails, the await browser.close() statement is never executed: the browser is
not explicitly torn down on that path. -/
theorem C4_counterexample :
    (buscar_portal_mapa (fun _ _ _ => Except.error "timeout") "fertilizantes").snd.browser_closed
      = false := rfl

/-- Claim C4, amended: the enclosing async_playwright scope exit runs on
every exit path, but the explicit browser.close() call runs exactly on the
successful path — on extraction failure it is skipped and teardown falls to
the enclosing scope exit alone. -/
theorem C4_browser_close_paths (extract : ExtractFn) (termo : String) :
    (buscar_portal_mapa extract termo).snd.playwright_stopped = true ∧
    (buscar_portal_mapa extract termo).snd.browser_closed
      = exceptIsOk (buscar_portal_mapa extract termo).fst := by
  cases h : extract mapa_urls buscar_portal_mapa_preferences (mapa_prompt termo) <;>
    simp [buscar_portal_mapa, h, exceptIsOk]

/-- Claim C5: when the model returns no content, run_ale_chat returns the
fixed fallback message, which is not the empty string. -/
theorem C5_fallback_on_empty_content (output : AgentRunOutput)
    (h : output.content = []) :
    run_ale_chat_response output = "Desculpe, não consegui gerar resposta." ∧
    run_ale_chat_response output ≠ "" := by
  refine ⟨?_, ?_⟩ <;> simp [run_ale_chat_response, h]

/-- Witness for C5_fallback_on_empty_content at the empty output. -/
theorem C5_fallback_witness :
    run_ale_chat_response { content := [] } = "Desculpe, não consegui gerar resposta." ∧
    run_ale_chat_response { content := [] } ≠ "" :=
  C5_fallback_on_empty_content { content := [] } rfl

/-- Claim C6: the extraction preferences buscar_portal_mapa passes on every
call carry a bounded per-call timeout of 15000 ms, which lies in the 15 to 20
second range. -/
theorem C6_timeout_in_range :
    buscar_portal_mapa_preferences.timeout_ms = 15000 ∧
    15000 ≤ buscar_portal_mapa_preferences.timeout_ms ∧
    buscar_portal_mapa_preferences.timeout_ms ≤ 20000 := by
  refine ⟨rfl, by decide, by decide⟩

/-- Claim C7: get_project_status reads neither clock nor store, so repeated
calls for the same project_id with no intervening events return the same
snapshot — the full response, and in particular every per-agent state,
progress percentage and ETA, is unchanged between consecutive calls. -/
theorem C7_status_idempotent (t₁ t₂ : Nat) (project_id : String) :
    get_project_status t₁ project_id = get_project_status t₂ project_id ∧
    (get_project_status t₁ project_id).progress
      = (get_project_status t₂ project_id).progress := ⟨rfl, rfl⟩

/-- Claim C8: on a chat call with no prior session (empty chat history) the
message sequence sent to the agent is exactly the project-context turn
followed by the new user turn, in that order, before any agent reply. -/
theorem C8_first_call_order (user_message : String) (pc : ProjectContext) :
    run_ale_chat_messages user_message pc []
      = [userMessage (context_message_text pc), userMessage user_message] := by
  simp [run_ale_chat_messages, run_ale_chat_locals, chat_locals_append,
    chat_locals_extend, chat_locals_init]

/-- Claim C9: the token dependency always supplies the constant "mock_token",
which is nonempty, so verify_token never takes its 401 branch and every
caller receives the fixed user user-1 with role colaborador. -/
theorem C9_verify_token_never_401 :
    token_dependency_default ≠ "" ∧
    verify_token token_dependency_default
      = Except.ok { user_id := "user-1", role := "colaborador" } := by
  refine ⟨by decide, ?_⟩
  simp [verify_token, token_dependency_default]

/-- Claim C10: run_ale_chat leaves the chat_history argument unchanged — the
list extensions mutate only the fresh local messages list, and the final
local state still holds the original history while messages is the new list
context turn, history, new user turn. -/
theorem C10_history_not_mutated (user_message : String) (pc : ProjectContext)
    (chat_history : List Message) :
    (run_ale_chat_locals user_message pc chat_history).chat_history = chat_history ∧
    (run_ale_chat_locals user_message pc chat_history).messages
      = userMessage (context_message_text pc)
          :: (chat_history ++ [userMessage user_message]) := by
  refine ⟨?_, ?_⟩ <;>
    simp [run_ale_chat_locals, chat_locals_append, chat_locals_extend, chat_locals_init]

end Uby
